import Mathlib

/-!
Verification of the YouTube audio-extractor service (two source variants:
src/index.js and the unnamed variant src/unnamed/part_000).

The service's only logic is: filter a list of format descriptors, stable-sort
it descending by (average) bitrate with absent bitrates treated as 0, take the
first element, and shape the chosen descriptor plus content metadata into a
flat JSON response.  We embed that logic shallowly: JS arrays become lists,
possibly-undefined JS values become Option, thrown exceptions become
Except.error carrying the message, and each Express handler becomes a total
function from its inputs (query parameter, fetch outcome, readiness state of
the module-level wrapper) to an HTTP response value.
-/

namespace YtExtract

/-- JavaScript stable sort in descending key order, as guaranteed by the
ECMAScript specification for `Array.prototype.sort` with the comparator
`(a, b) => key b - key a`: a stable sort is uniquely determined by the
comparator, so we realize it by stable insertion.  `insertD` places `x`
(which comes later in the original order than everything already inserted)
before the first element whose key is less than or equal to its own. -/
def insertD (key : α → Int) (x : α) : List α → List α
  | [] => [x]
  | y :: ys => if key y ≤ key x then x :: y :: ys else y :: insertD key x ys

/-- Stable descending sort by `key` (insertion sort; stability makes it equal
to what the JS engine produces for the comparator `(a, b) => key b - key a`). -/
def sortD (key : α → Int) : List α → List α
  | [] => []
  | x :: xs => insertD key x (sortD key xs)

/-- Of an element `x` and the best element so far among those after `x`,
return the better one; `x` wins ties because it comes first. -/
def betterD (key : α → Int) (x : α) : Option α → α
  | none => x
  | some y => if key x < key y then y else x

/-- The first element of maximal key in a list: a later element wins only
when its key is strictly larger. -/
def firstMax (key : α → Int) : List α → Option α
  | [] => none
  | x :: xs => some (betterD key x (firstMax key xs))

theorem firstMax_eq_none_iff (key : α → Int) (l : List α) :
    firstMax key l = none ↔ l = [] := by
  cases l <;> simp [firstMax]

/-- The head of the stable descending sort is exactly the first element of
maximal key. -/
theorem head_sortD (key : α → Int) (l : List α) :
    (sortD key l).head? = firstMax key l := by
  induction l with
  | nil => rfl
  | cons x xs ih =>
    simp only [sortD, firstMax]
    cases hs : sortD key xs with
    | nil =>
      have hxs : firstMax key xs = none := by rw [← ih, hs]; rfl
      rw [hxs]
      simp [insertD, betterD]
    | cons y ys =>
      have hy : firstMax key xs = some y := by rw [← ih, hs]; rfl
      rw [hy]
      simp only [insertD, betterD]
      by_cases hk : key y ≤ key x
      · simp [hk, not_lt.mpr hk]
      · simp [hk, lt_of_not_le hk]

/-- Characterization of `firstMax` over a filtered list, phrased on the
original list: the result satisfies the predicate, is a member, its key
dominates every element satisfying the predicate, and every
predicate-satisfying element strictly before it has a strictly smaller key. -/
theorem firstMax_filter_spec (key : α → Int) (p : α → Bool) :
    ∀ (l : List α) (b : α), firstMax key (l.filter p) = some b →
      p b = true ∧ b ∈ l ∧ (∀ c ∈ l, p c = true → key c ≤ key b) ∧
      ∃ l₁ l₂, l = l₁ ++ b :: l₂ ∧ ∀ c ∈ l₁, p c = true → key c < key b := by
  intro l
  induction l with
  | nil => intro b h; simp [firstMax] at h
  | cons x xs ih =>
    intro b h
    by_cases hpx : p x = true
    · rw [List.filter_cons, if_pos hpx] at h
      simp only [firstMax] at h
      cases hfm : firstMax key (xs.filter p) with
      | none =>
        rw [hfm] at h
        simp only [betterD, Option.some.injEq] at h
        subst h
        have hnil : xs.filter p = [] := (firstMax_eq_none_iff key _).mp hfm
        have hno : ∀ c ∈ xs, ¬ p c = true := by
          intro c hc hpc
          have hmem : c ∈ xs.filter p := List.mem_filter.mpr ⟨hc, hpc⟩
          rw [hnil] at hmem
          exact absurd hmem (List.not_mem_nil c)
        refine ⟨hpx, List.mem_cons_self _ _, ?_, [], xs, rfl, ?_⟩
        · intro c hc hpc
          rcases List.mem_cons.mp hc with hcx | hcxs
          · subst hcx; exact le_refl _
          · exact absurd hpc (hno c hcxs)
        · intro c hc
          exact absurd hc (List.not_mem_nil c)
      | some y =>
        rw [hfm] at h
        obtain ⟨hpy, hymem, hybound, l₁, l₂, hdec, hfirst⟩ := ih y hfm
        by_cases hlt : key x < key y
        · simp only [betterD, if_pos hlt, Option.some.injEq] at h
          subst h
          refine ⟨hpy, List.mem_cons_of_mem _ hymem, ?_, x :: l₁, l₂, by rw [hdec]; rfl, ?_⟩
          · intro c hc hpc
            rcases List.mem_cons.mp hc with hcx | hcxs
            · subst hcx; exact le_of_lt hlt
            · exact hybound c hcxs hpc
          · intro c hc hpc
            rcases List.mem_cons.mp hc with hcx | hcl
            · subst hcx; exact hlt
            · exact hfirst c hcl hpc
        · simp only [betterD, if_neg hlt, Option.some.injEq] at h
          subst h
          refine ⟨hpx, List.mem_cons_self _ _, ?_, [], xs, rfl, ?_⟩
          · intro c hc hpc
            rcases List.mem_cons.mp hc with hcx | hcxs
            · subst hcx; exact le_refl _
            · exact le_trans (hybound c hcxs hpc) (not_lt.mp hlt)
          · intro c hc
            exact absurd hc (List.not_mem_nil c)
    · rw [List.filter_cons, if_neg hpx] at h
      obtain ⟨hpb, hbmem, hbound, l₁, l₂, hdec, hfirst⟩ := ih b h
      refine ⟨hpb, List.mem_cons_of_mem _ hbmem, ?_, x :: l₁, l₂, by rw [hdec]; rfl, ?_⟩
      · intro c hc hpc
        rcases List.mem_cons.mp hc with hcx | hcxs
        · subst hcx; exact absurd hpc hpx
        · exact hbound c hcxs hpc
      · intro c hc hpc
        rcases List.mem_cons.mp hc with hcx | hcl
        · subst hcx; exact absurd hpc hpx
        · exact hfirst c hcl hpc

/-- A list containing a predicate-satisfying member has a first maximum of
its filtration. -/
theorem firstMax_filter_isSome (key : α → Int) (p : α → Bool) (l : List α)
    (h : ∃ f ∈ l, p f = true) : (firstMax key (l.filter p)).isSome := by
  obtain ⟨f, hf, hpf⟩ := h
  cases hfm : firstMax key (l.filter p) with
  | some y => rfl
  | none =>
    have hnil : l.filter p = [] := (firstMax_eq_none_iff key _).mp hfm
    have hmem : f ∈ l.filter p := List.mem_filter.mpr ⟨hf, hpf⟩
    rw [hnil] at hmem
    exact absurd hmem (List.not_mem_nil f)

/-! ## JavaScript value helpers -/

/-- A JSON-expression value as produced in the handlers: a string, a number,
JS `NaN` (still a number, produced by a failed `parseInt`), or JS
`undefined` (an absent metadata field passed through). -/
inductive JVal where
  | jstr : String → JVal
  | jnum : Int → JVal
  | nan : JVal
  | undef : JVal
deriving DecidableEq, Repr

/-- A possibly-undefined JS string as a JSON value. -/
def optStr : Option String → JVal
  | none => JVal.undef
  | some s => JVal.jstr s

/-- A possibly-undefined JS number as a JSON value. -/
def optNum : Option Int → JVal
  | none => JVal.undef
  | some n => JVal.jnum n

/-- JS falsiness of a possibly-undefined string (`!videoId` in the source):
true when the value is `undefined` or the empty string. -/
def jsFalsyStr : Option String → Bool
  | none => true
  | some s => s == ""

/-- JS `a || b` on possibly-undefined strings (`info.uploader || info.channel`
in the source): return `a` when it is truthy, otherwise `b`. -/
def jsOrStr (a b : Option String) : Option String :=
  if jsFalsyStr a then b else a

/-- The TypeError message Node produces when a property of `undefined` is
read. -/
def tyErrMsg (prop : String) : String :=
  "Cannot read properties of undefined (reading \x27" ++ prop ++ "\x27)"

/-- Reading a property of a possibly-undefined JS value: throws a TypeError
when the value is `undefined`. -/
def jsGet (prop : String) (o : Option α) (f : α → β) : Except String β :=
  match o with
  | none => Except.error (tyErrMsg prop)
  | some a => Except.ok (f a)

/-- JS `arr[arr.length - 1]`: the last element, or `undefined` for an empty
array (where the index expression is `-1`). -/
def jsIndexLast (l : List α) : Option α := l.getLast?

/-- Leading decimal digits of a character list. -/
def takeDigits (cs : List Char) : List Char := cs.takeWhile (fun c => c.isDigit)

/-- Numeric value of a digit list. -/
def digitsVal (cs : List Char) : Nat := cs.foldl (fun a c => a * 10 + (c.toNat - 48)) 0

/-- JS `parseInt(s)` in base 10: skip leading whitespace, read an optional
sign and then leading digits (ignoring any trailing junk); `none` models
the `NaN` result when no digit is found. -/
def jsParseInt (s : String) : Option Int :=
  let cs := s.toList.dropWhile (fun c => c.isWhitespace)
  match cs with
  | '-' :: rest =>
    let ds := takeDigits rest
    if ds.isEmpty then none else some (-(digitsVal ds : Int))
  | '+' :: rest =>
    let ds := takeDigits rest
    if ds.isEmpty then none else some ((digitsVal ds : Int))
  | _ =>
    let ds := takeDigits cs
    if ds.isEmpty then none else some ((digitsVal ds : Int))

/-- A JS number or `NaN`, as produced by `parseInt`. -/
def numOrNaN : Option Int → JVal
  | none => JVal.nan
  | some n => JVal.jnum n

/-! ## Data model of the yt-dlp extraction path -/

/-- One format descriptor as returned by the yt-dlp wrapper: `vcodec` and
`acodec` are codec names or the literal string "none" (possibly absent
altogether), `abr` is the average audio bitrate (possibly absent), `ext`
the container extension. -/
structure Format where
  url : String
  vcodec : Option String
  acodec : Option String
  abr : Option Int
  ext : String
deriving DecidableEq, Repr

/-- The filter of both `/extract` handlers and `/stream`:
`f.vcodec === 'none' && f.acodec !== 'none'` (an absent `acodec` is not the
string "none", so it counts as having audio, exactly as JS strict
inequality does). -/
def isAudioOnly (f : Format) : Bool :=
  f.vcodec == some "none" && !(f.acodec == some "none")

/-- The fallback filter of the part_000 `/extract` handler:
`f.acodec !== 'none'`. -/
def hasAudioF (f : Format) : Bool := !(f.acodec == some "none")

/-- The sort key `(x.abr || 0)`: an absent bitrate counts as zero. -/
def keyAbr (f : Format) : Int := f.abr.getD 0

/-- `formats.filter(audio-only).sort((a, b) => (b.abr || 0) - (a.abr || 0))[0]`:
the selection both `/extract` handlers and `/stream` perform. -/
def selectBestAudioOnly (formats : List Format) : Option Format :=
  (sortD keyAbr (formats.filter isAudioOnly)).head?

/-- The part_000 fallback selection over all formats that have audio. -/
def selectAnyAudio (formats : List Format) : Option Format :=
  (sortD keyAbr (formats.filter hasAudioF)).head?

/-- The metadata record returned by the yt-dlp wrapper, restricted to the
fields the handlers read. -/
structure VideoInfo where
  title : Option String
  uploader : Option String
  channel : Option String
  thumbnail : Option String
  duration : Option Int
  formats : List Format
deriving DecidableEq, Repr

/-! ## HTTP responses -/

/-- A response body: a JSON object given as its ordered field list, a plain
text body (`res.send` of a string), or the body Express generates for
`res.redirect`. -/
inductive Body where
  | json : List (String × JVal) → Body
  | text : String → Body
  | redirect : String → Body
deriving DecidableEq, Repr

/-- An HTTP response: status code, optional Location header, body. -/
structure HttpResponse where
  status : Nat
  location : Option String
  body : Body
deriving DecidableEq, Repr

/-- A JSON body holding a single `error` field. -/
def jsonErr (msg : String) : Body := Body.json [("error", JVal.jstr msg)]

/-- The canonical watch URL built from the identifier. -/
def watchUrl (vid : String) : String := "https://www.youtube.com/watch?v=" ++ vid

/-! ## The `/extract` handlers -/

/-- The response object both `/extract` variants build: six fields, in the
source order of the object literal. -/
def extractFields (info : VideoInfo) (bestAudio : Format) : List (String × JVal) :=
  [("audioUrl", JVal.jstr bestAudio.url),
   ("title", optStr info.title),
   ("artist", optStr (jsOrStr info.uploader info.channel)),
   ("thumbnail", optStr info.thumbnail),
   ("duration", optNum info.duration),
   ("format", JVal.jstr bestAudio.ext)]

/-- The try-block of the `/extract` handler of src/index.js.  `ready` is
whether the module-level `ytDlpWrap` has been assigned by `initYTDlp`;
`fetch` is the outcome of `ytDlpWrap.getVideoInfo` on the URL it is given
(`Except.error` models a rejection carrying the error message). -/
def extractIndexCore (ready : Bool) (videoId : Option String)
    (fetch : String → Except String VideoInfo) : Except String HttpResponse :=
  if jsFalsyStr videoId then Except.ok ⟨400, none, jsonErr "Missing videoId"⟩
  else if !ready then Except.ok ⟨503, none, jsonErr "Extractor not ready yet"⟩
  else
    match fetch (watchUrl (videoId.getD "")) with
    | Except.error msg => Except.error msg
    | Except.ok info =>
      match selectBestAudioOnly info.formats with
      | none => Except.ok ⟨404, none, jsonErr "No audio found"⟩
      | some bestAudio => Except.ok ⟨200, none, Body.json (extractFields info bestAudio)⟩

/-- The `/extract` handler of src/index.js, catch branch included. -/
def extractIndex (ready : Bool) (videoId : Option String)
    (fetch : String → Except String VideoInfo) : HttpResponse :=
  match extractIndexCore ready videoId fetch with
  | Except.ok r => r
  | Except.error msg =>
    ⟨500, none, Body.json [("error", JVal.jstr "Failed to extract"),
                           ("message", JVal.jstr msg)]⟩

/-- The try-block of the `/extract` handler of src/unnamed/part_000: same
selection, but with a fallback over all audio-bearing formats when no
audio-only format exists; the wrapper instance is created eagerly, so there
is no readiness check. -/
def extractP000Core (videoId : Option String)
    (fetch : String → Except String VideoInfo) : Except String HttpResponse :=
  if jsFalsyStr videoId then Except.ok ⟨400, none, jsonErr "Falta el videoId"⟩
  else
    match fetch (watchUrl (videoId.getD "")) with
    | Except.error msg => Except.error msg
    | Except.ok info =>
      match selectBestAudioOnly info.formats with
      | some bestAudio => Except.ok ⟨200, none, Body.json (extractFields info bestAudio)⟩
      | none =>
        match selectAnyAudio info.formats with
        | none => Except.ok ⟨404, none, jsonErr "No se encontró audio"⟩
        | some fallbackAudio =>
          Except.ok ⟨200, none, Body.json (extractFields info fallbackAudio)⟩

/-- The `/extract` handler of src/unnamed/part_000, catch branch included. -/
def extractP000 (videoId : Option String)
    (fetch : String → Except String VideoInfo) : HttpResponse :=
  match extractP000Core videoId fetch with
  | Except.ok r => r
  | Except.error msg =>
    ⟨500, none, Body.json [("error", JVal.jstr "Error al extraer"),
                           ("message", JVal.jstr msg)]⟩

/-! ## The `/stream` handlers -/

/-- The try-block of the `/stream` handler of src/index.js.  It uses the
module-level `ytDlpWrap` without a readiness guard: when that is still
`undefined`, the call `ytDlpWrap.getVideoInfo(...)` throws a TypeError
inside the try-block. -/
def streamIndexCore (ready : Bool) (videoId : Option String)
    (fetch : String → Except String VideoInfo) : Except String HttpResponse :=
  if jsFalsyStr videoId then Except.ok ⟨400, none, jsonErr "Missing videoId parameter"⟩
  else
    match (if ready then fetch (watchUrl (videoId.getD ""))
           else Except.error (tyErrMsg "getVideoInfo")) with
    | Except.error msg => Except.error msg
    | Except.ok info =>
      match selectBestAudioOnly info.formats with
      | none => Except.ok ⟨404, none, Body.text "No audio found"⟩
      | some bestAudio => Except.ok ⟨302, some bestAudio.url, Body.redirect bestAudio.url⟩

/-- The `/stream` handler of src/index.js, catch branch included (a plain
text 500, no JSON). -/
def streamIndex (ready : Bool) (videoId : Option String)
    (fetch : String → Except String VideoInfo) : HttpResponse :=
  match streamIndexCore ready videoId fetch with
  | Except.ok r => r
  | Except.error _ => ⟨500, none, Body.text "Stream failed"⟩

/-- The try-block of the `/stream` handler of src/unnamed/part_000: the
same code, but its wrapper instance always exists. -/
def streamP000Core (videoId : Option String)
    (fetch : String → Except String VideoInfo) : Except String HttpResponse :=
  if jsFalsyStr videoId then Except.ok ⟨400, none, jsonErr "Missing videoId parameter"⟩
  else
    match fetch (watchUrl (videoId.getD "")) with
    | Except.error msg => Except.error msg
    | Except.ok info =>
      match selectBestAudioOnly info.formats with
      | none => Except.ok ⟨404, none, Body.text "No audio found"⟩
      | some bestAudio => Except.ok ⟨302, some bestAudio.url, Body.redirect bestAudio.url⟩

/-- The `/stream` handler of src/unnamed/part_000, catch branch included. -/
def streamP000 (videoId : Option String)
    (fetch : String → Except String VideoInfo) : HttpResponse :=
  match streamP000Core videoId fetch with
  | Except.ok r => r
  | Except.error _ => ⟨500, none, Body.text "Stream failed"⟩

/-! ## The `/extract-simple` handler (identical in both variants) -/

/-- One format descriptor as returned by ytdl-core. -/
structure SimpleFormat where
  url : String
  audioBitrate : Option Int
  container : String
  hasVideo : Bool
  hasAudio : Bool
deriving DecidableEq, Repr

/-- A thumbnail record of ytdl-core. -/
structure Thumbnail where
  url : String
deriving DecidableEq, Repr

/-- The `videoDetails` record of ytdl-core, restricted to the fields the
handler reads; `lengthSeconds` is a string in the library's output, hence
the `parseInt` in the handler. -/
structure VideoDetails where
  title : String
  authorName : String
  thumbnails : List Thumbnail
  lengthSeconds : String
deriving DecidableEq, Repr

/-- The metadata record returned by `ytdl.getInfo`. -/
structure SimpleInfo where
  videoDetails : VideoDetails
  formats : List SimpleFormat
deriving DecidableEq, Repr

/-- Modelled from the spec: `ytdl.filterFormats(formats, "audioonly")` is
ytdl-core library code, not part of this repository; per the spec it keeps
exactly the variants that have audio and no video. -/
def filterAudioOnlySimple (formats : List SimpleFormat) : List SimpleFormat :=
  formats.filter (fun f => f.hasAudio && !f.hasVideo)

/-- The sort key `(x.audioBitrate || 0)` of the `/extract-simple` handler. -/
def keyABitrate (f : SimpleFormat) : Int := f.audioBitrate.getD 0

/-- The try-block of the `/extract-simple` handler (identical in both
source variants).  Property reads on possibly-undefined values go through
`jsGet`, so an empty thumbnail list makes the thumbnail access throw. -/
def simpleCore (videoId : Option String)
    (fetch : String → Except String SimpleInfo) : Except String HttpResponse :=
  if jsFalsyStr videoId then Except.ok ⟨400, none, jsonErr "Missing videoId parameter"⟩
  else
    match fetch (watchUrl (videoId.getD "")) with
    | Except.error msg => Except.error msg
    | Except.ok info =>
      let audioFormats := filterAudioOnlySimple info.formats
      if audioFormats.length = 0 then Except.ok ⟨404, none, jsonErr "No audio stream found"⟩
      else
        let bestAudio := (sortD keyABitrate audioFormats).head?
        match jsGet "url" bestAudio (fun f => f.url) with
        | Except.error msg => Except.error msg
        | Except.ok url =>
          match jsGet "url" (jsIndexLast info.videoDetails.thumbnails) (fun t => t.url) with
          | Except.error msg => Except.error msg
          | Except.ok thumbUrl =>
            match jsGet "container" bestAudio (fun f => f.container) with
            | Except.error msg => Except.error msg
            | Except.ok container =>
              match jsGet "audioBitrate" bestAudio (fun f => f.audioBitrate) with
              | Except.error msg => Except.error msg
              | Except.ok audioBitrate =>
                Except.ok ⟨200, none, Body.json
                  [("audioUrl", JVal.jstr url),
                   ("title", JVal.jstr info.videoDetails.title),
                   ("artist", JVal.jstr info.videoDetails.authorName),
                   ("thumbnail", JVal.jstr thumbUrl),
                   ("duration", numOrNaN (jsParseInt info.videoDetails.lengthSeconds)),
                   ("format", JVal.jstr container),
                   ("quality", optNum audioBitrate)]⟩

/-- The `/extract-simple` handler, catch branch included. -/
def extractSimple (videoId : Option String)
    (fetch : String → Except String SimpleInfo) : HttpResponse :=
  match simpleCore videoId fetch with
  | Except.ok r => r
  | Except.error msg =>
    ⟨500, none, Body.json [("error", JVal.jstr "Failed to extract audio"),
                           ("message", JVal.jstr msg)]⟩

/-! ## Helper lemmas about the selectors -/

theorem insertD_ne_nil (key : α → Int) (x : α) (l : List α) :
    insertD key x l ≠ [] := by
  cases l with
  | nil => simp [insertD]
  | cons y ys =>
    simp only [insertD]
    split <;> simp

theorem sortD_eq_nil_iff (key : α → Int) (l : List α) :
    sortD key l = [] ↔ l = [] := by
  cases l with
  | nil => simp [sortD]
  | cons x xs =>
    simp only [sortD]
    constructor
    · intro h; exact absurd h (insertD_ne_nil key x (sortD key xs))
    · intro h; exact absurd h (by simp)

/-- The selection both `/extract` handlers perform is the first format of
maximal bitrate among the audio-only ones. -/
theorem selectBestAudioOnly_eq_firstMax (formats : List Format) :
    selectBestAudioOnly formats = firstMax keyAbr (formats.filter isAudioOnly) := by
  unfold selectBestAudioOnly
  exact head_sortD keyAbr (formats.filter isAudioOnly)

/-- The part_000 fallback selection is the first format of maximal bitrate
among the audio-bearing ones. -/
theorem selectAnyAudio_eq_firstMax (formats : List Format) :
    selectAnyAudio formats = firstMax keyAbr (formats.filter hasAudioF) := by
  unfold selectAnyAudio
  exact head_sortD keyAbr (formats.filter hasAudioF)

theorem isAudioOnly_imp_hasAudio (f : Format) (h : isAudioOnly f = true) :
    hasAudioF f = true := by
  unfold isAudioOnly at h
  unfold hasAudioF
  exact (Bool.and_eq_true _ _).mp h |>.2

/-! ## Concrete fixtures -/

/-- An audio-only format at 128 kbps. -/
def fmtA : Format := ⟨"https://a.example/audio", some "none", some "opus", some 128, "webm"⟩

/-- A second audio-only format, also at 128 kbps (a tie with `fmtA`). -/
def fmtB : Format := ⟨"https://b.example/audio", some "none", some "mp4a", some 128, "m4a"⟩

/-- A muxed audio+video format. -/
def fmtAV : Format := ⟨"https://av.example/muxed", some "avc1", some "mp4a", some 100, "mp4"⟩

/-- A muted video-only format. -/
def fmtMuted : Format := ⟨"https://m.example/muted", some "vp9", some "none", none, "webm"⟩

/-- A video-only format without audio. -/
def fmtV : Format := ⟨"https://v.example/video", some "avc1", some "none", some 96, "mp4"⟩

/-- Metadata whose format list has a tie between two audio-only variants. -/
def infoMain : VideoInfo :=
  ⟨some "Song", some "Uploader", some "Channel", some "https://t.example/thumb",
   some 212, [fmtV, fmtA, fmtB]⟩

/-- Metadata with no audio-only variant but one muxed audio-bearing one. -/
def infoAV : VideoInfo :=
  ⟨some "Clip", some "Up", none, some "https://t.example/av", some 10, [fmtMuted, fmtAV]⟩

/-- Metadata with every passthrough field absent. -/
def infoNoMeta : VideoInfo := ⟨none, none, none, none, none, [fmtA]⟩

/-- Metadata whose only formats are silent. -/
def infoSilent : VideoInfo :=
  ⟨some "Mute", some "Up", none, some "https://t.example/m", some 5, [fmtMuted]⟩

/-! ## Claim theorems -/

/-- C1: for every format list containing at least one audio-only variant
(vcodec is the "none" sentinel, acodec is not), the selection used by both
`/extract` handlers returns an audio-only member of the list whose
`(abr || 0)` key is maximal among the audio-only variants, and every
audio-only variant strictly before it in fetch order has a strictly smaller
key — so ties go to the first. -/
theorem extract_selector_first_max_audio_only (formats : List Format)
    (h : ∃ f ∈ formats, isAudioOnly f = true) :
    ∃ b, selectBestAudioOnly formats = some b ∧ isAudioOnly b = true ∧ b ∈ formats ∧
      (∀ c ∈ formats, isAudioOnly c = true → keyAbr c ≤ keyAbr b) ∧
      ∃ l₁ l₂, formats = l₁ ++ b :: l₂ ∧
        ∀ c ∈ l₁, isAudioOnly c = true → keyAbr c < keyAbr b := by
  have hsome := firstMax_filter_isSome keyAbr isAudioOnly formats h
  rw [selectBestAudioOnly_eq_firstMax]
  cases hfm : firstMax keyAbr (formats.filter isAudioOnly) with
  | none => rw [hfm] at hsome; simp at hsome
  | some b =>
    obtain ⟨hpb, hbmem, hbound, l₁, l₂, hdec, hfirst⟩ :=
      firstMax_filter_spec keyAbr isAudioOnly formats b hfm
    exact ⟨b, rfl, hpb, hbmem, hbound, l₁, l₂, hdec, hfirst⟩

/-- C1 witness: on `[fmtV, fmtA, fmtB]` (one video-only format, then two
audio-only formats tied at 128) the theorem applies. -/
theorem extract_selector_first_max_audio_only_witness :
    (∃ f ∈ [fmtV, fmtA, fmtB], isAudioOnly f = true) ∧
    (∃ b, selectBestAudioOnly [fmtV, fmtA, fmtB] = some b ∧ isAudioOnly b = true ∧
      b ∈ [fmtV, fmtA, fmtB] ∧
      (∀ c ∈ [fmtV, fmtA, fmtB], isAudioOnly c = true → keyAbr c ≤ keyAbr b) ∧
      ∃ l₁ l₂, [fmtV, fmtA, fmtB] = l₁ ++ b :: l₂ ∧
        ∀ c ∈ l₁, isAudioOnly c = true → keyAbr c < keyAbr b) :=
  ⟨by decide, extract_selector_first_max_audio_only [fmtV, fmtA, fmtB] (by decide)⟩

/-- C2 counterexample: the `/extract` handler of src/index.js does not fall
back.  On metadata whose formats are a muted video and a muxed audio+video
variant (so no audio-only variant, but an audio-bearing one exists), it
answers 404 instead of selecting the muxed variant. -/
theorem extract_index_no_fallback_counterexample :
    (∀ f ∈ infoAV.formats, isAudioOnly f = false) ∧
    (∃ f ∈ infoAV.formats, hasAudioF f = true) ∧
    extractIndex true (some "abc123") (fun _ => Except.ok infoAV) =
      ⟨404, none, jsonErr "No audio found"⟩ :=
  ⟨by decide, by decide, by rfl⟩

/-- C2 amended: only the part_000 variant of `/extract` falls back.  For
every request with a truthy videoId whose fetched metadata has no
audio-only variant but at least one audio-bearing one, that handler
answers 200 with the audio-bearing variant of maximal `(abr || 0)`, ties
going to the first in fetch order; src/index.js instead answers 404. -/
theorem extract_p000_fallback_any_audio (videoId : Option String) (info : VideoInfo)
    (hvid : jsFalsyStr videoId = false)
    (hnone : ∀ f ∈ info.formats, isAudioOnly f = false)
    (hsome : ∃ f ∈ info.formats, hasAudioF f = true) :
    ∃ fb, selectAnyAudio info.formats = some fb ∧ hasAudioF fb = true ∧ fb ∈ info.formats ∧
      (∀ c ∈ info.formats, hasAudioF c = true → keyAbr c ≤ keyAbr fb) ∧
      (∃ l₁ l₂, info.formats = l₁ ++ fb :: l₂ ∧
        ∀ c ∈ l₁, hasAudioF c = true → keyAbr c < keyAbr fb) ∧
      extractP000 videoId (fun _ => Except.ok info) =
        ⟨200, none, Body.json (extractFields info fb)⟩ ∧
      extractIndex true videoId (fun _ => Except.ok info) =
        ⟨404, none, jsonErr "No audio found"⟩ := by
  have hfilter : info.formats.filter isAudioOnly = [] := by
    rw [List.filter_eq_nil_iff]
    intro f hf
    simp [hnone f hf]
  have hselNone : selectBestAudioOnly info.formats = none := by
    rw [selectBestAudioOnly_eq_firstMax, hfilter]
    rfl
  have hany := firstMax_filter_isSome keyAbr hasAudioF info.formats hsome
  rw [← selectAnyAudio_eq_firstMax] at hany
  cases hsel : selectAnyAudio info.formats with
  | none => rw [hsel] at hany; simp at hany
  | some fb =>
    have hfm : firstMax keyAbr (info.formats.filter hasAudioF) = some fb := by
      rw [← selectAnyAudio_eq_firstMax, hsel]
    obtain ⟨hpfb, hfbmem, hbound, l₁, l₂, hdec, hfirst⟩ :=
      firstMax_filter_spec keyAbr hasAudioF info.formats fb hfm
    refine ⟨fb, rfl, hpfb, hfbmem, hbound, ⟨l₁, l₂, hdec, hfirst⟩, ?_, ?_⟩
    · unfold extractP000 extractP000Core
      simp [hvid, hselNone, hsel]
    · unfold extractIndex extractIndexCore
      simp [hvid, hselNone]

/-- C2 witness: on `infoAV` (a muted video then a muxed audio+video format)
the amended theorem applies. -/
theorem extract_p000_fallback_any_audio_witness :
    (jsFalsyStr (some "abc123") = false ∧
     (∀ f ∈ infoAV.formats, isAudioOnly f = false) ∧
     (∃ f ∈ infoAV.formats, hasAudioF f = true)) ∧
    (∃ fb, selectAnyAudio infoAV.formats = some fb ∧ hasAudioF fb = true ∧
      fb ∈ infoAV.formats ∧
      (∀ c ∈ infoAV.formats, hasAudioF c = true → keyAbr c ≤ keyAbr fb) ∧
      (∃ l₁ l₂, infoAV.formats = l₁ ++ fb :: l₂ ∧
        ∀ c ∈ l₁, hasAudioF c = true → keyAbr c < keyAbr fb) ∧
      extractP000 (some "abc123") (fun _ => Except.ok infoAV) =
        ⟨200, none, Body.json (extractFields infoAV fb)⟩ ∧
      extractIndex true (some "abc123") (fun _ => Except.ok infoAV) =
        ⟨404, none, jsonErr "No audio found"⟩) :=
  ⟨⟨by decide, by decide, by decide⟩,
   extract_p000_fallback_any_audio (some "abc123") infoAV (by decide) (by decide) (by decide)⟩

/-! ## Fixtures for the `/extract-simple` path -/

/-- A thumbnail. -/
def thumb1 : Thumbnail := ⟨"https://t.example/1"⟩

/-- A larger thumbnail, last in the list. -/
def thumb2 : Thumbnail := ⟨"https://t.example/2"⟩

/-- An audio-only ytdl-core format without a bitrate. -/
def sfmtNoBr : SimpleFormat := ⟨"https://s.example/audio", none, "webm", false, true⟩

/-- An audio-only ytdl-core format at 160 kbps. -/
def sfmtBr : SimpleFormat := ⟨"https://s2.example/audio", some 160, "mp4", false, true⟩

/-- Details with two thumbnails. -/
def sdet : VideoDetails := ⟨"Song", "Author", [thumb1, thumb2], "212"⟩

/-- Details with an empty thumbnail list. -/
def sdetNoThumbs : VideoDetails := ⟨"Song", "Author", [], "212"⟩

/-- Simple-path metadata whose only audio format lacks a bitrate. -/
def sinfoNoBr : SimpleInfo := ⟨sdet, [sfmtNoBr]⟩

/-- Simple-path metadata with a bitrate. -/
def sinfoBr : SimpleInfo := ⟨sdet, [sfmtBr]⟩

/-- Simple-path metadata with no thumbnails. -/
def sinfoNoThumbs : SimpleInfo := ⟨sdetNoThumbs, [sfmtBr]⟩

/-- C3 counterexample: the `/extract` response object has no `quality` field
at all, and an absent title or thumbnail is passed through as `undefined`
rather than replaced by a default substitute: on metadata with every
descriptive field absent the handler still answers 200 with those fields
undefined. -/
theorem extract_response_shape_counterexample :
    ((extractFields infoNoMeta fmtA).map Prod.fst).contains "quality" = false ∧
    (extractFields infoNoMeta fmtA).lookup "title" = some JVal.undef ∧
    (extractFields infoNoMeta fmtA).lookup "thumbnail" = some JVal.undef ∧
    (extractFields infoNoMeta fmtA).lookup "artist" = some JVal.undef ∧
    extractIndex true (some "abc123") (fun _ => Except.ok infoNoMeta) =
      ⟨200, none, Body.json (extractFields infoNoMeta fmtA)⟩ :=
  ⟨by decide, by decide, by decide, by decide, by rfl⟩

/-- C3 amended: the `/extract` response object has exactly the six fields
audioUrl, title, artist, thumbnail, duration and format, in that order;
title, thumbnail and duration are passed through verbatim (undefined when
absent, with no default substitute), artist is the uploader name falling
back to the channel name under JS truthiness, and there is no quality
field. -/
theorem extract_response_fields (info : VideoInfo) (bestAudio : Format) :
    (extractFields info bestAudio).map Prod.fst =
      ["audioUrl", "title", "artist", "thumbnail", "duration", "format"] ∧
    (extractFields info bestAudio).lookup "audioUrl" = some (JVal.jstr bestAudio.url) ∧
    (extractFields info bestAudio).lookup "title" = some (optStr info.title) ∧
    (extractFields info bestAudio).lookup "artist" =
      some (optStr (jsOrStr info.uploader info.channel)) ∧
    (extractFields info bestAudio).lookup "thumbnail" = some (optStr info.thumbnail) ∧
    (extractFields info bestAudio).lookup "duration" = some (optNum info.duration) ∧
    (extractFields info bestAudio).lookup "format" = some (JVal.jstr bestAudio.ext) ∧
    (extractFields info bestAudio).lookup "quality" = none :=
  ⟨rfl, rfl, rfl, rfl, rfl, rfl, rfl, rfl⟩

/-- C4 counterexample: when the chosen format of `/extract-simple` has no
`audioBitrate`, the 200 response carries `quality` as `undefined`, not as a
numeric bitrate. -/
theorem simple_quality_undefined_counterexample :
    extractSimple (some "abc123") (fun _ => Except.ok sinfoNoBr) =
      ⟨200, none, Body.json
        [("audioUrl", JVal.jstr "https://s.example/audio"),
         ("title", JVal.jstr "Song"),
         ("artist", JVal.jstr "Author"),
         ("thumbnail", JVal.jstr "https://t.example/2"),
         ("duration", JVal.jnum 212),
         ("format", JVal.jstr "webm"),
         ("quality", JVal.undef)]⟩ := by
  rfl

/-- C4 amended: the `quality` field of a successful `/extract-simple`
response is the chosen format's `audioBitrate` passed through verbatim —
numeric exactly when the bitrate is present, `undefined` when it is
absent. -/
theorem simple_quality_is_bitrate_passthrough (videoId : Option String)
    (info : SimpleInfo) (b : SimpleFormat) (t : Thumbnail)
    (hvid : jsFalsyStr videoId = false)
    (hsel : (sortD keyABitrate (filterAudioOnlySimple info.formats)).head? = some b)
    (hth : jsIndexLast info.videoDetails.thumbnails = some t) :
    extractSimple videoId (fun _ => Except.ok info) =
      ⟨200, none, Body.json
        [("audioUrl", JVal.jstr b.url),
         ("title", JVal.jstr info.videoDetails.title),
         ("artist", JVal.jstr info.videoDetails.authorName),
         ("thumbnail", JVal.jstr t.url),
         ("duration", numOrNaN (jsParseInt info.videoDetails.lengthSeconds)),
         ("format", JVal.jstr b.container),
         ("quality", optNum b.audioBitrate)]⟩ := by
  have hne : filterAudioOnlySimple info.formats ≠ [] := by
    intro h0
    rw [h0] at hsel
    simp [sortD] at hsel
  unfold extractSimple simpleCore
  simp [hvid, hsel, hth, jsGet, List.length_eq_zero, hne]

/-- C4 witness: on metadata whose single audio format has bitrate 160, the
amended theorem applies and `quality` is the number 160. -/
theorem simple_quality_is_bitrate_passthrough_witness :
    (jsFalsyStr (some "abc123") = false ∧
     (sortD keyABitrate (filterAudioOnlySimple sinfoBr.formats)).head? = some sfmtBr ∧
     jsIndexLast sinfoBr.videoDetails.thumbnails = some thumb2) ∧
    extractSimple (some "abc123") (fun _ => Except.ok sinfoBr) =
      ⟨200, none, Body.json
        [("audioUrl", JVal.jstr sfmtBr.url),
         ("title", JVal.jstr sinfoBr.videoDetails.title),
         ("artist", JVal.jstr sinfoBr.videoDetails.authorName),
         ("thumbnail", JVal.jstr thumb2.url),
         ("duration", numOrNaN (jsParseInt sinfoBr.videoDetails.lengthSeconds)),
         ("format", JVal.jstr sfmtBr.container),
         ("quality", optNum sfmtBr.audioBitrate)]⟩ :=
  ⟨⟨by decide, by decide, by decide⟩,
   simple_quality_is_bitrate_passthrough (some "abc123") sinfoBr sfmtBr thumb2
     (by decide) (by decide) (by decide)⟩

/-- C5: on metadata whose format list is empty or has no audio-bearing
entry, both `/extract` selectors come out empty — JS indexing `[0]` of the
empty sorted list is `undefined`, which the handlers turn into the 404
not-found response rather than an exception (a 500). -/
theorem extract_no_audio_404 (videoId : Option String) (info : VideoInfo)
    (hvid : jsFalsyStr videoId = false)
    (hno : ∀ f ∈ info.formats, hasAudioF f = false) :
    selectBestAudioOnly info.formats = none ∧
    selectAnyAudio info.formats = none ∧
    extractIndex true videoId (fun _ => Except.ok info) =
      ⟨404, none, jsonErr "No audio found"⟩ ∧
    extractP000 videoId (fun _ => Except.ok info) =
      ⟨404, none, jsonErr "No se encontró audio"⟩ := by
  have hfa : info.formats.filter hasAudioF = [] := by
    rw [List.filter_eq_nil_iff]
    intro f hf
    simp [hno f hf]
  have hfo : info.formats.filter isAudioOnly = [] := by
    rw [List.filter_eq_nil_iff]
    intro f hf hIsA
    have ha := isAudioOnly_imp_hasAudio f (by simpa using hIsA)
    rw [hno f hf] at ha
    exact absurd ha (by decide)
  have hsel1 : selectBestAudioOnly info.formats = none := by
    rw [selectBestAudioOnly_eq_firstMax, hfo]
    rfl
  have hsel2 : selectAnyAudio info.formats = none := by
    rw [selectAnyAudio_eq_firstMax, hfa]
    rfl
  refine ⟨hsel1, hsel2, ?_, ?_⟩
  · unfold extractIndex extractIndexCore
    simp [hvid, hsel1]
  · unfold extractP000 extractP000Core
    simp [hvid, hsel1, hsel2]

/-- C5 witness: on metadata whose only format is a muted video the theorem
applies. -/
theorem extract_no_audio_404_witness :
    (jsFalsyStr (some "abc123") = false ∧
     ∀ f ∈ infoSilent.formats, hasAudioF f = false) ∧
    (selectBestAudioOnly infoSilent.formats = none ∧
     selectAnyAudio infoSilent.formats = none ∧
     extractIndex true (some "abc123") (fun _ => Except.ok infoSilent) =
       ⟨404, none, jsonErr "No audio found"⟩ ∧
     extractP000 (some "abc123") (fun _ => Except.ok infoSilent) =
       ⟨404, none, jsonErr "No se encontró audio"⟩) :=
  ⟨⟨by decide, by decide⟩,
   extract_no_audio_404 (some "abc123") infoSilent (by decide) (by decide)⟩

/-- C6: with a truthy videoId and a fetch yielding a chosen audio variant,
both `/stream` handlers answer a 302 whose Location is that variant's URL
(the body is the one Express generates for a redirect); when no variant is
chosen the 404 body is plain text, and when the fetch rejects the 500 body
is plain text — neither is JSON. -/
theorem stream_redirect_and_text_errors (videoId : Option String)
    (info infoNA : VideoInfo) (b : Format) (msg : String)
    (hvid : jsFalsyStr videoId = false)
    (hsel : selectBestAudioOnly info.formats = some b)
    (hselNA : selectBestAudioOnly infoNA.formats = none) :
    streamIndex true videoId (fun _ => Except.ok info) =
      ⟨302, some b.url, Body.redirect b.url⟩ ∧
    streamP000 videoId (fun _ => Except.ok info) =
      ⟨302, some b.url, Body.redirect b.url⟩ ∧
    streamIndex true videoId (fun _ => Except.ok infoNA) =
      ⟨404, none, Body.text "No audio found"⟩ ∧
    streamP000 videoId (fun _ => Except.ok infoNA) =
      ⟨404, none, Body.text "No audio found"⟩ ∧
    streamIndex true videoId (fun _ => Except.error msg) =
      ⟨500, none, Body.text "Stream failed"⟩ ∧
    streamP000 videoId (fun _ => Except.error msg) =
      ⟨500, none, Body.text "Stream failed"⟩ := by
  refine ⟨?_, ?_, ?_, ?_, ?_, ?_⟩
  · unfold streamIndex streamIndexCore
    simp [hvid, hsel]
  · unfold streamP000 streamP000Core
    simp [hvid, hsel]
  · unfold streamIndex streamIndexCore
    simp [hvid, hselNA]
  · unfold streamP000 streamP000Core
    simp [hvid, hselNA]
  · unfold streamIndex streamIndexCore
    simp [hvid]
  · unfold streamP000 streamP000Core
    simp [hvid]

/-- C6 witness: on `infoMain` the chosen variant is `fmtA`, and `infoSilent`
exercises the 404 branch. -/
theorem stream_redirect_and_text_errors_witness :
    (jsFalsyStr (some "abc123") = false ∧
     selectBestAudioOnly infoMain.formats = some fmtA ∧
     selectBestAudioOnly infoSilent.formats = none) ∧
    (streamIndex true (some "abc123") (fun _ => Except.ok infoMain) =
       ⟨302, some fmtA.url, Body.redirect fmtA.url⟩ ∧
     streamP000 (some "abc123") (fun _ => Except.ok infoMain) =
       ⟨302, some fmtA.url, Body.redirect fmtA.url⟩ ∧
     streamIndex true (some "abc123") (fun _ => Except.ok infoSilent) =
       ⟨404, none, Body.text "No audio found"⟩ ∧
     streamP000 (some "abc123") (fun _ => Except.ok infoSilent) =
       ⟨404, none, Body.text "No audio found"⟩ ∧
     streamIndex true (some "abc123") (fun _ => Except.error "boom") =
       ⟨500, none, Body.text "Stream failed"⟩ ∧
     streamP000 (some "abc123") (fun _ => Except.error "boom") =
       ⟨500, none, Body.text "Stream failed"⟩) :=
  ⟨⟨by decide, by decide, by decide⟩,
   stream_redirect_and_text_errors (some "abc123") infoMain infoSilent fmtA "boom"
     (by decide) (by decide) (by decide)⟩

/-- C7: when the external extraction rejects with a message, `/extract` (in
both variants) and `/extract-simple` answer 500 with a JSON body whose
`message` field is that message verbatim. -/
theorem extract_failure_500_message (videoId : Option String) (msg : String)
    (hvid : jsFalsyStr videoId = false) :
    extractIndex true videoId (fun _ => Except.error msg) =
      ⟨500, none, Body.json [("error", JVal.jstr "Failed to extract"),
                             ("message", JVal.jstr msg)]⟩ ∧
    extractP000 videoId (fun _ => Except.error msg) =
      ⟨500, none, Body.json [("error", JVal.jstr "Error al extraer"),
                             ("message", JVal.jstr msg)]⟩ ∧
    extractSimple videoId (fun _ => Except.error msg) =
      ⟨500, none, Body.json [("error", JVal.jstr "Failed to extract audio"),
                             ("message", JVal.jstr msg)]⟩ := by
  refine ⟨?_, ?_, ?_⟩
  · unfold extractIndex extractIndexCore
    simp [hvid]
  · unfold extractP000 extractP000Core
    simp [hvid]
  · unfold extractSimple simpleCore
    simp [hvid]

/-- C7 witness: a rejection with message "network down" surfaces verbatim. -/
theorem extract_failure_500_message_witness :
    jsFalsyStr (some "abc123") = false ∧
    (extractIndex true (some "abc123") (fun _ => Except.error "network down") =
       ⟨500, none, Body.json [("error", JVal.jstr "Failed to extract"),
                              ("message", JVal.jstr "network down")]⟩ ∧
     extractP000 (some "abc123") (fun _ => Except.error "network down") =
       ⟨500, none, Body.json [("error", JVal.jstr "Error al extraer"),
                              ("message", JVal.jstr "network down")]⟩ ∧
     extractSimple (some "abc123") (fun _ => Except.error "network down") =
       ⟨500, none, Body.json [("error", JVal.jstr "Failed to extract audio"),
                              ("message", JVal.jstr "network down")]⟩) :=
  ⟨by decide,
   extract_failure_500_message (some "abc123") "network down" (by decide)⟩

/-- C8: with the videoId query parameter absent, both `/extract` variants
answer 400 with a JSON body carrying an `error` field, and the response
does not depend on the fetch function — no fetch is consulted. -/
theorem extract_missing_videoId_400 (ready : Bool)
    (fetch fetch2 : String → Except String VideoInfo) :
    extractIndex ready none fetch = ⟨400, none, jsonErr "Missing videoId"⟩ ∧
    extractP000 none fetch = ⟨400, none, jsonErr "Falta el videoId"⟩ ∧
    extractIndex ready none fetch = extractIndex ready none fetch2 ∧
    extractP000 none fetch = extractP000 none fetch2 :=
  ⟨rfl, rfl, rfl, rfl⟩

/-- C9: before `initYTDlp` has assigned the wrapper, `/extract` of
src/index.js answers 503 with the not-ready error, while `/stream` of the
same file has no readiness guard: the property read on the undefined
wrapper throws, its catch branch answers 500 with the plain-text stream
failure body. -/
theorem extract_not_ready_503_stream_500 (videoId : Option String)
    (fetch : String → Except String VideoInfo)
    (hvid : jsFalsyStr videoId = false) :
    extractIndex false videoId fetch = ⟨503, none, jsonErr "Extractor not ready yet"⟩ ∧
    streamIndex false videoId fetch = ⟨500, none, Body.text "Stream failed"⟩ := by
  constructor
  · unfold extractIndex extractIndexCore
    simp [hvid]
  · unfold streamIndex streamIndexCore
    simp [hvid]

/-- C9 witness: with a concrete id and a fetch that would succeed, the
not-ready state still yields 503 and 500 respectively. -/
theorem extract_not_ready_503_stream_500_witness :
    jsFalsyStr (some "abc123") = false ∧
    (extractIndex false (some "abc123") (fun _ => Except.ok infoMain) =
       ⟨503, none, jsonErr "Extractor not ready yet"⟩ ∧
     streamIndex false (some "abc123") (fun _ => Except.ok infoMain) =
       ⟨500, none, Body.text "Stream failed"⟩) :=
  ⟨by decide,
   extract_not_ready_503_stream_500 (some "abc123") (fun _ => Except.ok infoMain) (by decide)⟩

/-- C10: when the fetched metadata of `/extract-simple` has an empty
thumbnail list (and the audio filter is non-empty, so the response object
is built), indexing the last thumbnail yields `undefined`, reading `.url`
on it throws a TypeError, and the catch branch answers 500 with that
message — not a 200 with a default thumbnail. -/
theorem simple_empty_thumbnails_500 (videoId : Option String) (info : SimpleInfo)
    (hvid : jsFalsyStr videoId = false)
    (hth : info.videoDetails.thumbnails = [])
    (haud : filterAudioOnlySimple info.formats ≠ []) :
    extractSimple videoId (fun _ => Except.ok info) =
      ⟨500, none, Body.json [("error", JVal.jstr "Failed to extract audio"),
                             ("message", JVal.jstr (tyErrMsg "url"))]⟩ := by
  obtain ⟨b, hsel⟩ : ∃ b, (sortD keyABitrate (filterAudioOnlySimple info.formats)).head? = some b := by
    cases hs : sortD keyABitrate (filterAudioOnlySimple info.formats) with
    | nil => exact absurd ((sortD_eq_nil_iff _ _).mp hs) haud
    | cons x xs => exact ⟨x, rfl⟩
  unfold extractSimple simpleCore
  simp [hvid, hsel, hth, jsGet, jsIndexLast, List.length_eq_zero, haud]

/-- C10 witness: metadata with no thumbnails and one audio format yields
the 500 TypeError response. -/
theorem simple_empty_thumbnails_500_witness :
    (jsFalsyStr (some "abc123") = false ∧
     sinfoNoThumbs.videoDetails.thumbnails = [] ∧
     filterAudioOnlySimple sinfoNoThumbs.formats ≠ []) ∧
    extractSimple (some "abc123") (fun _ => Except.ok sinfoNoThumbs) =
      ⟨500, none, Body.json [("error", JVal.jstr "Failed to extract audio"),
                             ("message", JVal.jstr (tyErrMsg "url"))]⟩ :=
  ⟨⟨by decide, by decide, by decide⟩,
   simple_empty_thumbnails_500 (some "abc123") sinfoNoThumbs (by decide) (by decide) (by decide)⟩

end YtExtract
